import Mathlib

/-
Verification of the Arcade Physics tile-separation and overlap-check routines
of the Phaser game framework.

Embedded source (src/physics/arcade/tilemap/ProcessTileSeparationX.js):
  - ProcessTileSeparationX (body, x): flag setting, repositioning, bounce.
  - CheckOverlapY (body, collisionInfo): CollisionInfo refresh and mirrored
    touching/blocked face updates on both bodies.

The Body flag setters (setTouchingUp, setBlockedUp, ...), the facing-direction
constants and CollisionInfo.update live elsewhere in the repository and are
modelled from the specification where noted.

JavaScript numbers are modelled as rationals: every operation used by the
embedded code (addition, subtraction, negation, multiplication by a bounce
factor, comparison, min/max, halving) is exact on the inputs considered.
-/

namespace Phaser

/-- A 2D vector of coordinates, as used for `body.position`, `body.velocity`
and `body.bounce`. -/
structure Vec2 where
  x : ℚ
  y : ℚ
deriving DecidableEq

/-- The per-face `blocked` flags of a Body (`body.blocked.left` etc.). -/
structure FaceFlags where
  up : Bool
  down : Bool
  left : Bool
  right : Bool
deriving DecidableEq

/-- Modelled from the spec: the `touching` record of a Body, with
"up/down/left/right/none booleans, reset each step". -/
structure TouchFlags where
  none : Bool
  up : Bool
  down : Bool
  left : Bool
  right : Bool
deriving DecidableEq

/-- The slice of the Arcade Physics Body state read or written by
`ProcessTileSeparationX` and `CheckOverlapY`: position (top-left of the AABB),
velocity, per-axis bounce, AABB extent, and the per-face flag records. -/
structure Body where
  position : Vec2
  velocity : Vec2
  bounce : Vec2
  width : ℚ
  height : ℚ
  blocked : FaceFlags
  touching : TouchFlags
deriving DecidableEq

/-- Embedding of `ProcessTileSeparationX(body, x)` from
src/physics/arcade/tilemap/ProcessTileSeparationX.js:

    if (x < 0)      { body.blocked.left = true; }
    else if (x > 0) { body.blocked.right = true; }
    body.position.x -= x;
    if (body.bounce.x === 0) { body.velocity.x = 0; }
    else { body.velocity.x = -body.velocity.x * body.bounce.x; }

The JavaScript function mutates `body` in place and receives no tile
argument at all; the embedding returns the updated body. -/
def ProcessTileSeparationX (body : Body) (x : ℚ) : Body :=
  let bodyA :=
    if x < 0 then
      { body with blocked := { body.blocked with left := true } }
    else if x > 0 then
      { body with blocked := { body.blocked with right := true } }
    else
      body
  let bodyB :=
    { bodyA with position := { bodyA.position with x := bodyA.position.x - x } }
  if bodyB.bounce.x = 0 then
    { bodyB with velocity := { bodyB.velocity with x := 0 } }
  else
    { bodyB with velocity := { bodyB.velocity with x := -bodyB.velocity.x * bodyB.bounce.x } }

/-- Characterisation of `ProcessTileSeparationX` as a single record update:
the blocked flags are or-ed with the sign tests on `x`, the position shifts
by `-x`, and the velocity gets the bounce rule. -/
theorem processTileSeparationX_eq (body : Body) (x : ℚ) :
    ProcessTileSeparationX body x =
      { body with
        position := { body.position with x := body.position.x - x },
        velocity := { body.velocity with
          x := if body.bounce.x = 0 then 0 else -body.velocity.x * body.bounce.x },
        blocked := { body.blocked with
          left := body.blocked.left || decide (x < 0),
          right := body.blocked.right || decide (x > 0) } } := by
  unfold ProcessTileSeparationX
  rcases lt_trichotomy x 0 with h | h | h
  · simp only [h, if_pos, not_lt.mpr h.le, h.not_lt, if_neg, ite_false, ite_true]
    split <;> simp [*]
  · simp only [h, lt_irrefl, ite_false, if_neg, sub_zero]
    split <;> simp [*]
  · simp only [h, not_lt.mpr h.le, h.not_lt, ite_false, ite_true, if_neg, if_pos]
    split <;> simp [*]

/-- Modelled from the spec: the facing constants `CONST.FACING_UP`,
`CONST.FACING_DOWN`, `CONST.FACING_LEFT`, `CONST.FACING_RIGHT`,
`CONST.FACING_NONE` (the arcade `const.js` is not part of the provided
sources); the spec's data model gives `face` as an
"enum: UP/DOWN/LEFT/RIGHT/NONE - the dominant separation axis". -/
inductive Face where
  | FACING_NONE
  | FACING_UP
  | FACING_DOWN
  | FACING_LEFT
  | FACING_RIGHT
deriving DecidableEq

/-- Modelled from the spec: `Body#setTouchingUp` (Body.js is not part of the
provided sources); per the data model, `touching` holds
"up/down/left/right/none booleans", so marking a touched face raises that
face's flag and clears `none`. -/
def Body.setTouchingUp (b : Body) : Body :=
  { b with touching := { b.touching with up := true, none := false } }

/-- Modelled from the spec: `Body#setTouchingDown`, as for `setTouchingUp`. -/
def Body.setTouchingDown (b : Body) : Body :=
  { b with touching := { b.touching with down := true, none := false } }

/-- Modelled from the spec: `Body#setBlockedUp` (Body.js is not part of the
provided sources); per the data model, `blocked` holds
"up/down/left/right booleans", so the setter raises the face's flag. -/
def Body.setBlockedUp (b : Body) : Body :=
  { b with blocked := { b.blocked with up := true } }

/-- Modelled from the spec: `Body#setBlockedDown`, as for `setBlockedUp`. -/
def Body.setBlockedDown (b : Body) : Body :=
  { b with blocked := { b.blocked with down := true } }

/-- The CollisionInfo record of the spec's data model: references to the two
bodies, `intersects`, signed `overlapX`/`overlapY`, the resolved `face`, and
`touching`. -/
structure CollisionInfo where
  body1 : Body
  body2 : Body
  intersects : Bool
  touching : Bool
  overlapX : ℚ
  overlapY : ℚ
  face : Face
deriving DecidableEq

/-- Modelled from the spec: `CollisionInfo.update` (CollisionInfo.js is not
part of the provided sources). Per the spec: it "computes AABB intersection;
if none, returns not-intersecting"; otherwise
"overlapX = min(b1.right,b2.right) - max(b1.x,b2.x) (and analogous for Y)";
`face` is "the axis whose overlap is smaller ... a box resolves along its
axis of least penetration", with the direction on that axis taken from the
bodies' relative placement (FACING_UP on body1 when body2 sits above it,
matching "FACING_UP on body1 implies FACING_DOWN on body2"); `touching` is
"true iff intersects and at least one axis overlap is near-zero". The
near-zero threshold has no numeric value in the spec, so it is the
parameter `epsilon`. -/
def CollisionInfo.update (epsilon : ℚ) (ci : CollisionInfo) : CollisionInfo :=
  let b1 := ci.body1
  let b2 := ci.body2
  let right1 := b1.position.x + b1.width
  let right2 := b2.position.x + b2.width
  let bottom1 := b1.position.y + b1.height
  let bottom2 := b2.position.y + b2.height
  if b1.position.x < right2 ∧ b2.position.x < right1 ∧
      b1.position.y < bottom2 ∧ b2.position.y < bottom1 then
    let ox := min right1 right2 - max b1.position.x b2.position.x
    let oy := min bottom1 bottom2 - max b1.position.y b2.position.y
    let f : Face :=
      if oy ≤ ox then
        if b2.position.y + b2.height / 2 < b1.position.y + b1.height / 2 then
          Face.FACING_UP
        else
          Face.FACING_DOWN
      else
        if b2.position.x + b2.width / 2 < b1.position.x + b1.width / 2 then
          Face.FACING_LEFT
        else
          Face.FACING_RIGHT
    { ci with
      intersects := true
      touching := decide (ox ≤ epsilon ∨ oy ≤ epsilon)
      overlapX := ox
      overlapY := oy
      face := f }
  else
    { ci with
      intersects := false
      touching := false
      overlapX := 0
      overlapY := 0
      face := Face.FACING_NONE }

/-- Embedding of `CheckOverlapY(body, collisionInfo)` from
src/physics/arcade/tilemap/ProcessTileSeparationX.js:

    collisionInfo = CollisionInfo.update(collisionInfo);
    var face = collisionInfo.face;
    var body1 = collisionInfo.body1;
    var body2 = collisionInfo.body2;
    if (face === CONST.FACING_UP)
    { body1.setTouchingUp(); body2.setTouchingDown();
      body1.setBlockedUp();  body2.setBlockedDown(); }
    else if (face === CONST.FACING_DOWN)
    { body1.setTouchingDown(); body2.setTouchingUp();
      body1.setBlockedDown();  body2.setBlockedUp(); }
    return collisionInfo.touching;

The JavaScript mutates the two bodies held by the CollisionInfo and returns
a boolean; the embedding returns the updated CollisionInfo paired with that
boolean (the first JS parameter `body` is never read by the function body
and is dropped). `epsilon` is threaded to the modelled
`CollisionInfo.update`. -/
def CheckOverlapY (epsilon : ℚ) (ci0 : CollisionInfo) : CollisionInfo × Bool :=
  let ci := CollisionInfo.update epsilon ci0
  let face := ci.face
  let body1 := ci.body1
  let body2 := ci.body2
  if face = Face.FACING_UP then
    ({ ci with
        body1 := body1.setTouchingUp.setBlockedUp
        body2 := body2.setTouchingDown.setBlockedDown }, ci.touching)
  else if face = Face.FACING_DOWN then
    ({ ci with
        body1 := body1.setTouchingDown.setBlockedDown
        body2 := body2.setTouchingUp.setBlockedUp }, ci.touching)
  else
    (ci, ci.touching)

/-- `CollisionInfo.update` never changes the `body1` reference itself. -/
theorem update_body1 (epsilon : ℚ) (ci : CollisionInfo) :
    (CollisionInfo.update epsilon ci).body1 = ci.body1 := by
  simp only [CollisionInfo.update]
  split <;> rfl

/-- `CollisionInfo.update` never changes the `body2` reference itself. -/
theorem update_body2 (epsilon : ℚ) (ci : CollisionInfo) :
    (CollisionInfo.update epsilon ci).body2 = ci.body2 := by
  simp only [CollisionInfo.update]
  split <;> rfl

/-- Blocked flags all cleared, as at the start of a step. -/
def flagsClear : FaceFlags :=
  { up := false, down := false, left := false, right := false }

/-- Touching flags all cleared (`none = true`), as at the start of a step. -/
def touchClear : TouchFlags :=
  { none := true, up := false, down := false, left := false, right := false }

/-- Concrete sample body for the witnesses: a 10x10 box at (3, 4) moving at
(5, 6) with `bounce.x = 1` and cleared flags. -/
def bodyA : Body :=
  { position := { x := 3, y := 4 }
    velocity := { x := 5, y := 6 }
    bounce := { x := 1, y := 0 }
    width := 10
    height := 10
    blocked := flagsClear
    touching := touchClear }

/-- Concrete sample body for the witnesses: a 10x10 box at the origin, at
rest, with zero bounce and cleared flags. -/
def bodyO : Body :=
  { position := { x := 0, y := 0 }
    velocity := { x := 0, y := 0 }
    bounce := { x := 0, y := 0 }
    width := 10
    height := 10
    blocked := flagsClear
    touching := touchClear }

/-- Concrete pair whose refresh resolves to FACING_UP: body2 overlaps body1
from above by 5 pixels. -/
def ciUp : CollisionInfo :=
  { body1 := { bodyO with position := { x := 0, y := 10 } }
    body2 := { bodyO with position := { x := 0, y := 5 } }
    intersects := false
    touching := false
    overlapX := 0
    overlapY := 0
    face := Face.FACING_NONE }

/-- Concrete pair in deep penetration: body2 overlaps body1 from below by
6 pixels on Y (and fully on X), so the refresh resolves to FACING_DOWN with
`touching = false` for any epsilon below 6. -/
def ciDeep : CollisionInfo :=
  { body1 := bodyO
    body2 := { bodyO with position := { x := 0, y := 4 } }
    intersects := false
    touching := false
    overlapX := 0
    overlapY := 0
    face := Face.FACING_NONE }

/-- Concrete pair of disjoint bodies: the refresh resolves to FACING_NONE. -/
def ciApart : CollisionInfo :=
  { body1 := bodyO
    body2 := { bodyO with position := { x := 100, y := 0 } }
    intersects := false
    touching := false
    overlapX := 0
    overlapY := 0
    face := Face.FACING_NONE }

/-- C1: for every body separated from a tile on the X axis,
`ProcessTileSeparationX` applies bounce after repositioning exactly as
specified: when `bounce.x = 0` the final `velocity.x` is `0`, otherwise it is
`-velocity.x * bounce.x`. The function receives no tile argument at all
(`Body -> Rat -> Body`), so no tile state can be modified by the call. -/
theorem C1_tile_bounce (body : Body) (x : ℚ) :
    (ProcessTileSeparationX body x).velocity.x =
      if body.bounce.x = 0 then 0 else -body.velocity.x * body.bounce.x := by
  simp [processTileSeparationX_eq]

/-- C2: for every body and separation amount `x`, `ProcessTileSeparationX`
subtracts `x` from `position.x`. -/
theorem C2_position_shift (body : Body) (x : ℚ) :
    (ProcessTileSeparationX body x).position.x = body.position.x - x := by
  simp [processTileSeparationX_eq]

/-- C3: `ProcessTileSeparationX` sets the blocked flag according to the sign
of `x`: `blocked.left` becomes true when `x < 0`, `blocked.right` becomes
true when `x > 0` (a body blocked while moving right ends with
`blocked.right = true`), and when `x = 0` the blocked record is unchanged. -/
theorem C3_blocked_sign (body : Body) (x : ℚ) :
    (x < 0 → (ProcessTileSeparationX body x).blocked.left = true) ∧
    (0 < x → (ProcessTileSeparationX body x).blocked.right = true) ∧
    (x = 0 → (ProcessTileSeparationX body x).blocked = body.blocked) := by
  refine ⟨fun h => ?_, fun h => ?_, fun h => ?_⟩ <;>
    simp [processTileSeparationX_eq, h]

/-- C3 witness: the three sign cases of `C3_blocked_sign` at `bodyA` with
separation amounts -1, 1 and 0. -/
theorem C3_blocked_sign_witness :
    (ProcessTileSeparationX bodyA (-1)).blocked.left = true ∧
    (ProcessTileSeparationX bodyA 1).blocked.right = true ∧
    (ProcessTileSeparationX bodyA 0).blocked = bodyA.blocked :=
  ⟨(C3_blocked_sign bodyA (-1)).1 (by decide),
   (C3_blocked_sign bodyA 1).2.1 (by decide),
   (C3_blocked_sign bodyA 0).2.2 rfl⟩

/-- C4 counterexample: calling `ProcessTileSeparationX` with `x = 0` is not a
no-op on the velocity: `bodyA` has `velocity.x = 5` and `bounce.x = 1`, and
the call reflects `velocity.x` to -5 even though the separation amount is
zero. -/
theorem C4_zero_not_noop :
    (ProcessTileSeparationX bodyA 0).velocity.x ≠ bodyA.velocity.x := by
  simp [processTileSeparationX_eq, bodyA]
  norm_num

/-- C4 amended: calling `ProcessTileSeparationX` with `x = 0` leaves the
position and the blocked flags unchanged, but the bounce rule is still
applied to `velocity.x`: it is zeroed when `bounce.x = 0` and reflected to
`-velocity.x * bounce.x` otherwise (so the whole call is a no-op only when
`velocity.x` is already a fixed point of that rule). -/
theorem C4_zero_amended (body : Body) :
    (ProcessTileSeparationX body 0).position = body.position ∧
    (ProcessTileSeparationX body 0).blocked = body.blocked ∧
    (ProcessTileSeparationX body 0).velocity.y = body.velocity.y ∧
    (ProcessTileSeparationX body 0).velocity.x =
      (if body.bounce.x = 0 then 0 else -body.velocity.x * body.bounce.x) := by
  simp [processTileSeparationX_eq]

/-- C5: bounce energy law against a tile (an immovable partner): for any
nonzero separation amount, `bounce.x = 1` preserves the magnitude of
`velocity.x` (elastic) and `bounce.x = 0` zeroes it. -/
theorem C5_bounce_energy (body : Body) (x : ℚ) (_hx : x ≠ 0) :
    (body.bounce.x = 1 →
      |(ProcessTileSeparationX body x).velocity.x| = |body.velocity.x|) ∧
    (body.bounce.x = 0 → (ProcessTileSeparationX body x).velocity.x = 0) := by
  refine ⟨fun h => ?_, fun h => ?_⟩ <;>
    simp [processTileSeparationX_eq, h]

/-- C5 witness: `C5_bounce_energy` at `bodyA` (which has `bounce.x = 1`) with
separation amount 2. -/
theorem C5_bounce_energy_witness :
    |(ProcessTileSeparationX bodyA 2).velocity.x| = |bodyA.velocity.x| :=
  (C5_bounce_energy bodyA 2 (by decide)).1 rfl

/-- C6: for every pair whose refreshed CollisionInfo resolves to a vertical
face, `CheckOverlapY` updates both bodies as a mirrored face pair: on
FACING_UP, body1 gets touching/blocked up and body2 gets touching/blocked
down; on FACING_DOWN, body1 gets touching/blocked down and body2 gets
touching/blocked up. -/
theorem C6_mirrored_faces (epsilon : ℚ) (ci : CollisionInfo) :
    ((CollisionInfo.update epsilon ci).face = Face.FACING_UP →
      (CheckOverlapY epsilon ci).1.body1.touching.up = true ∧
      (CheckOverlapY epsilon ci).1.body1.blocked.up = true ∧
      (CheckOverlapY epsilon ci).1.body2.touching.down = true ∧
      (CheckOverlapY epsilon ci).1.body2.blocked.down = true) ∧
    ((CollisionInfo.update epsilon ci).face = Face.FACING_DOWN →
      (CheckOverlapY epsilon ci).1.body1.touching.down = true ∧
      (CheckOverlapY epsilon ci).1.body1.blocked.down = true ∧
      (CheckOverlapY epsilon ci).1.body2.touching.up = true ∧
      (CheckOverlapY epsilon ci).1.body2.blocked.up = true) := by
  refine ⟨fun h => ?_, fun h => ?_⟩ <;>
    simp [CheckOverlapY, h, Body.setTouchingUp, Body.setTouchingDown,
      Body.setBlockedUp, Body.setBlockedDown]

/-- C6 witness: `C6_mirrored_faces` at the concrete pair `ciUp`, whose
refresh resolves to FACING_UP. -/
theorem C6_mirrored_faces_witness :
    (CheckOverlapY 1 ciUp).1.body1.touching.up = true ∧
    (CheckOverlapY 1 ciUp).1.body1.blocked.up = true ∧
    (CheckOverlapY 1 ciUp).1.body2.touching.down = true ∧
    (CheckOverlapY 1 ciUp).1.body2.blocked.down = true :=
  (C6_mirrored_faces 1 ciUp).1
    (by norm_num [CollisionInfo.update, ciUp, bodyO, flagsClear, touchClear,
      min_def, max_def])

/-- C7 counterexample: blocked flags do NOT fire only for touching contacts.
At the concrete pair `ciDeep` the refresh yields deep penetration
(`intersects = true`, `touching = false`, overlaps 10 and 6 against
epsilon 1) with face FACING_DOWN, yet `CheckOverlapY` still raises
`blocked.down` on body1 (clear before the call) and `blocked.up` on
body2. -/
theorem C7_blocked_deep_penetration :
    (CollisionInfo.update 1 ciDeep).touching = false ∧
    (CollisionInfo.update 1 ciDeep).intersects = true ∧
    (CollisionInfo.update 1 ciDeep).face = Face.FACING_DOWN ∧
    ciDeep.body1.blocked.down = false ∧
    (CheckOverlapY 1 ciDeep).1.body1.blocked.down = true ∧
    (CheckOverlapY 1 ciDeep).1.body2.blocked.up = true := by
  norm_num [CheckOverlapY, CollisionInfo.update, ciDeep, bodyO, flagsClear,
    touchClear, min_def, max_def, Body.setTouchingUp, Body.setTouchingDown,
    Body.setBlockedUp, Body.setBlockedDown]
  decide

/-- C7 amended: `CheckOverlapY` raises the blocked flags of both bodies
whenever the refreshed CollisionInfo resolves to a vertical face, regardless
of the `touching` flag — also on deep penetration where only `intersects`
holds; the `touching` distinction only determines the returned boolean. -/
theorem C7_blocked_face_only (epsilon : ℚ) (ci : CollisionInfo) :
    ((CollisionInfo.update epsilon ci).face = Face.FACING_UP →
      (CheckOverlapY epsilon ci).1.body1.blocked.up = true ∧
      (CheckOverlapY epsilon ci).1.body2.blocked.down = true) ∧
    ((CollisionInfo.update epsilon ci).face = Face.FACING_DOWN →
      (CheckOverlapY epsilon ci).1.body1.blocked.down = true ∧
      (CheckOverlapY epsilon ci).1.body2.blocked.up = true) := by
  refine ⟨fun h => ?_, fun h => ?_⟩ <;>
    simp [CheckOverlapY, h, Body.setTouchingUp, Body.setTouchingDown,
      Body.setBlockedUp, Body.setBlockedDown]

/-- C7 witness: `C7_blocked_face_only` at the concrete deep-penetration pair
`ciDeep`, whose refresh resolves to FACING_DOWN with `touching = false`. -/
theorem C7_blocked_face_only_witness :
    (CheckOverlapY 1 ciDeep).1.body1.blocked.down = true ∧
    (CheckOverlapY 1 ciDeep).1.body2.blocked.up = true :=
  (C7_blocked_face_only 1 ciDeep).2
    (by norm_num [CollisionInfo.update, ciDeep, bodyO, flagsClear, touchClear,
      min_def, max_def])

/-- C8: separation is deterministic: two runs of `ProcessTileSeparationX`
(resp. `CheckOverlapY`) from equal body and CollisionInfo states with equal
separation amounts (resp. equal epsilon) produce equal body states and
return values. -/
theorem C8_deterministic (b1 b2 : Body) (x1 x2 e1 e2 : ℚ)
    (ci1 ci2 : CollisionInfo)
    (hb : b1 = b2) (hx : x1 = x2) (he : e1 = e2) (hc : ci1 = ci2) :
    ProcessTileSeparationX b1 x1 = ProcessTileSeparationX b2 x2 ∧
    CheckOverlapY e1 ci1 = CheckOverlapY e2 ci2 := by
  subst hb; subst hx; subst he; subst hc
  exact ⟨rfl, rfl⟩

/-- C8 witness: `C8_deterministic` at the concrete inputs `bodyA`, 2, 1,
`ciUp` given to both runs. -/
theorem C8_deterministic_witness :
    ProcessTileSeparationX bodyA 2 = ProcessTileSeparationX bodyA 2 ∧
    CheckOverlapY 1 ciUp = CheckOverlapY 1 ciUp :=
  C8_deterministic bodyA bodyA 2 2 1 1 ciUp ciUp rfl rfl rfl rfl

/-- C9: `ProcessTileSeparationX` only modifies X-axis state: `position.y`,
`velocity.y`, `bounce`, `width`, `height`, the whole `touching` record and
the `blocked.up`/`blocked.down` flags are unchanged by the call. -/
theorem C9_frame_x_only (body : Body) (x : ℚ) :
    (ProcessTileSeparationX body x).position.y = body.position.y ∧
    (ProcessTileSeparationX body x).velocity.y = body.velocity.y ∧
    (ProcessTileSeparationX body x).bounce = body.bounce ∧
    (ProcessTileSeparationX body x).width = body.width ∧
    (ProcessTileSeparationX body x).height = body.height ∧
    (ProcessTileSeparationX body x).touching = body.touching ∧
    (ProcessTileSeparationX body x).blocked.up = body.blocked.up ∧
    (ProcessTileSeparationX body x).blocked.down = body.blocked.down := by
  simp [processTileSeparationX_eq]

/-- C10: when the refreshed CollisionInfo's face is neither FACING_UP nor
FACING_DOWN, `CheckOverlapY` leaves both bodies exactly as they were (no
touching or blocked flag is set), and in every case it returns the refreshed
CollisionInfo's `touching` value. -/
theorem C10_other_faces_id (epsilon : ℚ) (ci : CollisionInfo) :
    ((CollisionInfo.update epsilon ci).face ≠ Face.FACING_UP →
      (CollisionInfo.update epsilon ci).face ≠ Face.FACING_DOWN →
      (CheckOverlapY epsilon ci).1.body1 = ci.body1 ∧
      (CheckOverlapY epsilon ci).1.body2 = ci.body2) ∧
    (CheckOverlapY epsilon ci).2 = (CollisionInfo.update epsilon ci).touching := by
  constructor
  · intro h1 h2
    simp [CheckOverlapY, h1, h2, update_body1, update_body2]
  · simp only [CheckOverlapY]
    split
    · rfl
    split <;> rfl

/-- C10 witness: `C10_other_faces_id` at the concrete disjoint pair
`ciApart`, whose refresh resolves to FACING_NONE. -/
theorem C10_other_faces_id_witness :
    (CheckOverlapY 1 ciApart).1.body1 = ciApart.body1 ∧
    (CheckOverlapY 1 ciApart).1.body2 = ciApart.body2 :=
  (C10_other_faces_id 1 ciApart).1
    (by norm_num [CollisionInfo.update, ciApart, bodyO, flagsClear, touchClear,
      min_def, max_def]
        decide)
    (by norm_num [CollisionInfo.update, ciApart, bodyO, flagsClear, touchClear,
      min_def, max_def]
        decide)

end Phaser
